import Mathlib

/-!
# Verification of the sta-playground upload/publish core

Shallow embedding of the core logic of the repository, checked against the
natural-language specification.  Every definition is translated from a
source file under `src/`; the doc comment of each definition names the
file (and lines) it embeds.  The one exception is marked explicitly: a
definition following the words of the spec, kept for comparison with the
endpoint the code actually builds.
-/

namespace StaPlayground

/- ## Azure helper (`src/unnamed/part_003`, the sta-azure-helper action)

`createJWTHeaderAndPayload` builds the client-assertion JWT header and
payload.  The wall clock (`Date.now`, seconds) and the freshly generated
UUID (`uuidv4()`) are passed in explicitly as `now` and `jti`. -/

structure JWTHeader where
  alg : String
  typ : String
  x5t : String
deriving DecidableEq

structure JWTPayload where
  aud : String
  iss : String
  sub : String
  jti : String
  nbf : Nat
  exp : Nat
deriving DecidableEq

/-- The token endpoint URL, as built in `src/unnamed/part_003` line 28. -/
def tokenUrl (tenantId : String) : String :=
  "https://login.microsoftonline.com/" ++ tenantId ++ "/oauth2/v2.0/token"

/-- `createJWTHeaderAndPayload` from `src/unnamed/part_003` lines 27-47.
The source sets `exp: now + 3600 // 60 minutes` (a fixed lifetime) and
`jti: uuidv4()` (the fresh UUID, here the explicit argument `jti`). -/
def createJWTHeaderAndPayload (thumbprint tenantId clientId : String)
    (now : Nat) (jti : String) : JWTHeader × JWTPayload :=
  ({ alg := "RS256", typ := "JWT", x5t := thumbprint },
   { aud := tokenUrl tenantId
     iss := clientId
     sub := clientId
     jti := jti
     nbf := now
     exp := now + 3600 })

/- ### Control flow of the azure-helper `run` (`src/unnamed/part_003` lines 53-112)

The fallible steps are parameters: `extractKey` models the
`openssl pkcs12` key extraction (fails on a wrong password or a bundle
without a private key), `signAssertion` models the RSA-SHA256 signing
step, and `tokenResponse` models the token-endpoint `fetch` (the only
network call; `.error` means the fetch or JSON parse threw, `.ok (ok, t)`
is a response with `res.ok = ok`).  The second component of the result
counts network calls issued. -/

inductive AzureOutcome
  | credentialFailure
  | assertionFailure (msg : String)
  | fetchFailure (msg : String)
  | tokenRejected
  | tokenIssued (t : String)
deriving DecidableEq

/-- The azure-helper `run` control flow from `src/unnamed/part_003`:
a key-extraction error hits `core.setFailed` and `process.exit(1)` before
any network request; a signing error is caught by the outer `try` before
the token fetch; the token POST is issued only after both succeed. -/
def azureRun (extractKey : Except String Unit)
    (signAssertion : Except String String)
    (tokenResponse : Except String (Bool × String)) : AzureOutcome × Nat :=
  match extractKey with
  | .error _ => (.credentialFailure, 0)
  | .ok () =>
    match signAssertion with
    | .error m => (.assertionFailure m, 0)
    | .ok _assertion =>
      match tokenResponse with
      | .error m => (.fetchFailure m, 1)
      | .ok (false, _) => (.tokenRejected, 1)
      | .ok (true, t) => (.tokenIssued t, 1)

/- ## SharePoint drive/folder resolver (`src/unnamed/part_001`, the sta-sp-drive action)

The Graph API is modelled as an oracle `GraphWorld` from the endpoint
string (as built by the source) to either a thrown error (`.error`,
covering non-2xx responses, on which `graphFetch` throws) or the parsed
JSON response.  `GResp` carries the fields the source reads: `id`,
`name`, `parentReference.driveId` (as `parentDriveId`), and — for
collection responses — the `value` array (`none` when the JSON has no
`value` field; reading `.length`/`.find` on it then throws in JS). -/

/-- JavaScript `String.prototype.split` with a single-character
separator: splits on every occurrence, keeping empty pieces, and yields
`[""]` on the empty string.  Structurally recursive so concrete calls
reduce in the kernel. -/
def jsSplitAux (sep : Char) : List Char → List Char → List String
  | [], acc => [String.mk acc.reverse]
  | c :: cs, acc =>
    if c = sep then String.mk acc.reverse :: jsSplitAux sep cs []
    else jsSplitAux sep cs (c :: acc)

/-- `s.split(sep)` of JavaScript (single-character separator). -/
def jsSplit (s : String) (sep : Char) : List String := jsSplitAux sep s.data []

structure GItem where
  id : String
  name : String
  parentDriveId : String
  isFolder : Bool
deriving DecidableEq

structure GResp where
  id : String
  name : String
  parentDriveId : String
  value : Option (List GItem)
deriving DecidableEq

def GraphWorld : Type := String → Except String GResp

/-- The subfolder loop of `searchByDrive` (`src/unnamed/part_001`
lines 60-68): for each remaining segment, list the children of the
current folder and pick the child whose `name` equals the segment.  A
missing `value` array or a missing child makes the JS code throw
(`TypeError` on `undefined`), caught by the inner `catch`, hence
`none`. -/
def walkChildren (w : GraphWorld) (driveId : String) :
    String → List String → Option String
  | folderId, [] => some folderId
  | folderId, sub :: rest =>
    match w ("/drives/" ++ driveId ++ "/items/" ++ folderId ++ "/children") with
    | .error _ => none
    | .ok children =>
      match children.value with
      | none => none
      | some items =>
        match items.find? (fun it => it.name = sub) with
        | none => none
        | some it => walkChildren w driveId it.id rest

/-- `searchByDrive` from `src/unnamed/part_001` lines 41-83: search the
drives of the site by name; anything other than exactly one hit logs a
warning and falls through to `undefined`.  With a unique drive, split
`folderPath` on `/`, resolve the first segment under the drive root and
walk the rest via child listings; any error in that block is caught and
yields `undefined`.  `folderPath` is an `Option` because the caller in
`findDriveAndFolderId` passes only three arguments, leaving it
`undefined` (then `folderPath.split` throws, caught by the inner
`catch`).  Returns `(folderId, driveId)`. -/
def searchByDrive (w : GraphWorld) (siteId drive : String)
    (folderPath : Option String) : Option (String × String) :=
  match w ("/sites/" ++ siteId ++ "/drives?search=" ++ drive) with
  | .error _ => none
  | .ok driveData =>
    match driveData.value with
    | none => none
    | some vs =>
      if h : vs.length = 1 then
        let driveId := (vs.get ⟨0, by omega⟩).id
        match folderPath with
        | none => none
        | some fp =>
          match jsSplit fp '/' with
          | [] => none
          | root :: rest =>
            match w ("/drives/" ++ driveId ++ "/root:/" ++ root) with
            | .error _ => none
            | .ok folder0 =>
              match walkChildren w driveId folder0.id rest with
              | none => none
              | some fid => some (fid, driveId)
      else none

/-- `fetchFolderByPath` from `src/unnamed/part_001` lines 92-115: look up
the final path segment under the default drive root of the site, require the
`value` array of the response to contain exactly one folder-typed item,
otherwise return `undefined`.  The `graphFetch` error is not caught here
and propagates to the caller (`.error`). -/
def fetchFolderByPath (w : GraphWorld) (siteId folderPath : String) :
    Except String (Option (String × String)) :=
  let folderName := (jsSplit folderPath '/').getLastD ""
  match w ("/sites/" ++ siteId ++ "/drive/root:/" ++ folderName) with
  | .error e => .error e
  | .ok searchResults =>
    match searchResults.value with
    | none => .ok none
    | some vs =>
      if vs.isEmpty then .ok none
      else
        match vs.filter (fun it => it.isFolder) with
        | [] => .ok none
        | [f] => .ok (some (f.id, f.parentDriveId))
        | _ :: _ :: _ => .ok none

/-- `findDriveAndFolderId` from `src/unnamed/part_001` lines 124-138:
first the whole-site folder-name search, then `searchByDrive` — called
with three arguments, so its `folderPath` parameter is `undefined`. -/
def findDriveAndFolderId (w : GraphWorld) (siteId folderPath : String) :
    Except String (Option (String × String)) :=
  match fetchFolderByPath w siteId folderPath with
  | .error e => .error e
  | .ok (some r) => .ok (some r)
  | .ok none => .ok (searchByDrive w siteId folderPath none)

/-- The segment loop of `getFolderByPath` (`src/unnamed/part_001`
lines 148-159): extend the cumulative path by one segment, look it up
under the drive root, and carry the returned id; any segment failure
returns `null`. -/
def gfbpWalk (w : GraphWorld) (driveId : String) :
    String → String → List String → Option (String × String)
  | currentPath, currentId, [] => some (currentId, currentPath)
  | currentPath, _, seg :: rest =>
    let p := currentPath ++ "/" ++ seg
    match w ("/drives/" ++ driveId ++ "/root:" ++ p) with
    | .error _ => none
    | .ok result => gfbpWalk w driveId p result.id rest

/-- `getFolderByPath` from `src/unnamed/part_001` lines 140-165: split
the path into segments, drop a leading `Documents` or
`Shared%20Documents` library component, then walk the cumulative
prefixes starting from id `root`.  Returns `(folderId, fullPath)`. -/
def getFolderByPath (w : GraphWorld) (driveId folderPath : String) :
    Option (String × String) :=
  let segments0 := jsSplit folderPath '/'
  let segments :=
    if segments0.headD "" = "Documents" ∨ segments0.headD "" = "Shared%20Documents"
    then segments0.tail else segments0
  gfbpWalk w driveId "" "root" segments

/-- The `drive_id` / `folder_id` pair the action outputs; when the
resolution went through `getFolderByPath`, the returned object has no
`driveId` field, so the output `drive_id` is `undefined` (`none`). -/
structure ResolvedFolder where
  folderId : Option String
  driveId : Option String
deriving DecidableEq

/-- The folder-resolution chain of `run` (`src/unnamed/part_001`
lines 214-239): first `getFolderByPath` (the segment walk) on the
encoded path; if it returned `null`, a direct lookup of the encoded path
under the drive root; if that lookup throws, the catch block falls back
to `findDriveAndFolderId` on the decoded path (name search, then
drive-name search), whose own throw is caught and leaves the folder
unresolved. -/
def resolveFolder (w : GraphWorld) (siteId driveId spFolderPath decodedFolderPath : String) :
    Option ResolvedFolder :=
  match getFolderByPath w driveId spFolderPath with
  | some (fid, _) => some { folderId := some fid, driveId := none }
  | none =>
    match w ("/drives/" ++ driveId ++ "/root:/" ++ spFolderPath) with
    | .ok folderData =>
      some { folderId := some folderData.id
             driveId := some folderData.parentDriveId }
    | .error _ =>
      match findDriveAndFolderId w siteId decodedFolderPath with
      | .error _ => none
      | .ok none => none
      | .ok (some (fid, did)) =>
        some { folderId := some fid, driveId := some did }

/- ## SharePoint upload action
(`src/.github/actions/upload-sharepoint/sta-sharepoint-upload.js`) -/

/-- The answer of the remote to one create-child-folder POST with
`conflictBehavior: fail` (sta-sharepoint-upload.js lines 111-123):
`res.ok` with the id from the body, or a non-2xx status code (`409` or
another). -/
inductive CreateResp
  | ok (id : String)
  | status (code : Nat)
deriving DecidableEq

/-- The Graph drive as seen by `createFoldersIfNecessary`:
`create parentId name` is the creation POST to
`/drives/{driveId}/items/{parentId}/children` (lines 111-123), and
`childLookup parentId name` the name-filtered lookup
`/drives/{driveId}/items/{parentId}/children?$filter=name eq {name}`
of lines 131-134, whose `graphFetch` may throw (`.error`); a response
with a missing `value` array behaves like an empty match list (same
branch at line 135). -/
structure FolderRemote where
  create : String → String → CreateResp
  childLookup : String → String → Except String (List String)

/-- The `uploadReport` accumulator of `run`
(sta-sharepoint-upload.js lines 237-242). -/
structure UploadReport where
  uploads : Nat := 0
  failures : Nat := 0
  failedList : List String := []
  failedFolderCreations : Nat := 0
deriving DecidableEq

/-- The `folderMap` of `createFoldersIfNecessary` (line 94), as an
association list growing at the front. -/
def FolderMap : Type := List (String × String)

def fmLookup (fm : FolderMap) (k : String) : Option String :=
  (List.find? (fun p => p.1 = k) fm).map (fun p => p.2)

/-- The `currentPath` update of line 105,
`currentPath = currentPath ? currentPath/segment : segment` — the
initial JS `undefined` and the empty string produced by a leading `/`
are both falsy, modelled as `""`. -/
def nextCurrentPath (currentPath seg : String) : String :=
  if currentPath = "" then seg else currentPath ++ "/" ++ seg

/-- The inner segment loop of `createFoldersIfNecessary`
(sta-sharepoint-upload.js lines 104-154): reuse a memoized id;
otherwise POST the creation.  On `res.ok` memoize the returned id; on
`409` run the name-filtered child lookup — a thrown lookup call, zero
matches and multiple matches all `throw` (modelled `.error`, carrying
the report the catch in `run` observes), with the "Upload is aborted"
messages of lines 138 and 142, and none of these branches increments
`failedFolderCreations`; exactly one match memoizes the existing id and
continues.  Any other status increments `failedFolderCreations` and
throws the message of line 151.  Every throw leaves
`createFoldersIfNecessary` — there is no per-subtree recovery. -/
def createFolderSegments (r : FolderRemote) :
    List String → String → String → FolderMap → UploadReport →
    Except (String × UploadReport) (FolderMap × UploadReport)
  | [], _, _, fm, rep => .ok (fm, rep)
  | seg :: rest, currentPath, parentId, fm, rep =>
    match fmLookup fm (nextCurrentPath currentPath seg) with
    | some pid =>
      createFolderSegments r rest (nextCurrentPath currentPath seg) pid fm rep
    | none =>
      match r.create parentId seg with
      | .ok i =>
        createFolderSegments r rest (nextCurrentPath currentPath seg) i
          ((nextCurrentPath currentPath seg, i) :: fm) rep
      | .status code =>
        if code = 409 then
          match r.childLookup parentId seg with
          | .error e => .error (e, rep)
          | .ok [] =>
            .error ("Failed to get data for existing folder "
              ++ nextCurrentPath currentPath seg ++ ". Upload is aborted.", rep)
          | .ok [i] =>
            createFolderSegments r rest (nextCurrentPath currentPath seg) i
              ((nextCurrentPath currentPath seg, i) :: fm) rep
          | .ok (_ :: _ :: _) =>
            .error ("Found multiple existing folders for "
              ++ nextCurrentPath currentPath seg ++ ". Upload is aborted.", rep)
        else
          .error ("Failed to create folder " ++ nextCurrentPath currentPath seg
              ++ ". Upload is aborted.",
            { rep with failedFolderCreations := rep.failedFolderCreations + 1 })

/-- The outer folder loop of `createFoldersIfNecessary` (lines 97-155):
each folder path is split on `/` and walked from the destination root
id with a fresh `currentPath`; a throw abandons the remaining folders
and propagates to the catch in `run`, so the upload step never runs. -/
def createFoldersOver (r : FolderRemote) (folderId : String) :
    List String → FolderMap → UploadReport →
    Except (String × UploadReport) (FolderMap × UploadReport)
  | [], fm, rep => .ok (fm, rep)
  | p :: ps, fm, rep =>
    match createFolderSegments r (jsSplit p '/') "" folderId fm rep with
    | .error e => .error e
    | .ok (fm2, rep2) => createFoldersOver r folderId ps fm2 rep2

/-- `createFoldersIfNecessary` (sta-sharepoint-upload.js lines 87-156):
initializes the folder map with the destination root (line 95,
`folderMap.set("", folderId)`) and processes the folder paths.  The map
is local to this function — `run` never passes it to `uploadFiles`. -/
def createFoldersIfNecessary (r : FolderRemote) (folderId : String)
    (paths : List String) (rep : UploadReport) :
    Except (String × UploadReport) (FolderMap × UploadReport) :=
  createFoldersOver r folderId paths [("", folderId)] rep

/-- A file found by `getSourceStructure` (sta-sharepoint-upload.js
lines 184-189): its name and its full local path
(`path.join(srcFolder, entry.name)`); unlike folder paths, file paths
are not stripped of the zip directory by `run`. -/
structure SrcFile where
  name : String
  path : String
deriving DecidableEq

/-- The PUT endpoint built by `uploadFile` (line 56):
`/drives/{driveId}/items/{folderId}:{file.path}/content`. -/
def uploadEndpoint (driveId folderId filePath : String) : String :=
  "/drives/" ++ driveId ++ "/items/" ++ folderId ++ ":" ++ filePath ++ "/content"

/-- `uploadFile` (sta-sharepoint-upload.js lines 50-76): one single PUT
of the file bytes to the content endpoint under the given folder id; a
request error (`graphFetch` throws on every non-2xx status, 429
included) is caught and returns `false` — there is no retry, no backoff
sleep and no status-code inspection.  `w` maps the endpoint to the
outcome of the request. -/
def uploadFile (w : String → Except String Unit)
    (driveId folderId : String) (f : SrcFile) : Bool :=
  match w (uploadEndpoint driveId folderId f.path) with
  | .ok _ => true
  | .error _ => false

/-- `uploadFiles` (sta-sharepoint-upload.js lines 210-225): strictly
sequential; every file is uploaded with the same session `folderId`
(the destination root `run` received) — no folder map is consulted;
success increments `uploads`, failure increments `failures` and appends
the file path, and the loop continues either way (then sleeps the
throttle delay).  The second component records the PUT endpoints in
order. -/
def uploadFiles (w : String → Except String Unit) (driveId folderId : String) :
    List SrcFile → UploadReport → UploadReport × List String
  | [], rep => (rep, [])
  | f :: fs, rep =>
    match uploadFiles w driveId folderId fs
        (if uploadFile w driveId folderId f
         then { rep with uploads := rep.uploads + 1 }
         else { rep with failures := rep.failures + 1
                         failedList := rep.failedList ++ [f.path] }) with
    | (repF, eps) => (repF, uploadEndpoint driveId folderId f.path :: eps)

/-- Stated from the words of the spec (§4.5), for comparison with
`uploadEndpoint`: the endpoint shape the specification prescribes,
`.../items/{parentFolderId}:{filename}/content` with the parent folder
id resolved for the parent directory of the file. -/
def claimedContentEndpoint (parentFolderId filename : String) : String :=
  "/items/" ++ parentFolderId ++ ":" ++ filename ++ "/content"

/- ## Shell upload script
(`src/.github/actions/sta-upload-sharepoint/upload-to-sharepoint.sh`) -/

/-- The `$response` shell variable tested by the 429 guard of line 81 of
the script.  It is never assigned anywhere in the script — the curl
status of line 75 goes to `response_code` — so it always expands to the
empty string. -/
def shellResponseVar : String := ""

/-- The upload counters of the script (lines 17-19). -/
structure ShTotals where
  successes : Nat := 0
  failures : Nat := 0
  failedFiles : List String := []
deriving DecidableEq

/-- The `while true` upload loop of `upload_files`
(upload-to-sharepoint.sh lines 71-104): `respCode k` is the curl status
of attempt `k`.  The first branch tests `"$response" == "429"` — the
never-assigned `shellResponseVar`, not `response_code` — and only this
branch retries: it increments `retry_count`, gives up at 3 recording a
failure, and otherwise sleeps 5 and loops.  Otherwise a status ≥ 400
records a failure and any other status a success, both leaving the
loop.  `fuel` bounds the iterations (the loop body runs at most three
times).  Returns the totals and the list of sleeps taken, in order. -/
def shUploadLoop (respCode : Nat → Nat) (file : String) :
    Nat → Nat → ShTotals → ShTotals × List Nat
  | _, 0, st => (st, [])
  | retryCount, fuel + 1, st =>
    if shellResponseVar = "429" then
      if 3 ≤ retryCount + 1 then
        ({ st with failures := st.failures + 1
                   failedFiles := st.failedFiles ++ [file] }, [])
      else
        match shUploadLoop respCode file (retryCount + 1) fuel st with
        | (st2, sleeps) => (st2, 5 :: sleeps)
    else if 400 ≤ respCode retryCount then
      ({ st with failures := st.failures + 1
                 failedFiles := st.failedFiles ++ [file] }, [])
    else
      ({ st with successes := st.successes + 1 }, [])

/-- One file of `upload_files`: the loop entered with `retry_count = 0`
(line 71); three units of fuel suffice because the retry branch gives
up once `retry_count` reaches 3. -/
def shUploadFile (respCode : Nat → Nat) (file : String) (st : ShTotals) :
    ShTotals × List Nat :=
  shUploadLoop respCode file 0 3 st

/- ## Preview/publish job poller
(`src/.github/actions/sta-sp-preview/sta-sp-preview.js`, lines 1-143) -/

/-- What one interval tick observes: a parsed job-details response
(remote `state` and progress counters) or a thrown fetch/parse error. -/
inductive PollTick
  | success (state : String) (processed failed : Nat)
  | callFailure
deriving DecidableEq

inductive PollOutcome
  | resolved (processed failed : Nat)
  | aborted (msg : String)
deriving DecidableEq

/-- The rejection message built at line 75 of sta-sp-preview.js. -/
def pollFailureMessage (name : String) : String :=
  "Failed to get status for job " ++ name
    ++ " after 6 attempts. Completion cannot be guaranteed. Please verify yourself."

/-- The module state of the poller: `jobStatusFailures` (line 17, a
cumulative counter — nothing ever resets it), the interval handle
`jobStatusPoll` as `timerActive` (line 16), the settled promise as
`outcome` (`resolve`/`reject` on a settled promise is a no-op, hence
`Option.orElse`), and `requests` instrumenting the number of
job-details fetches issued. -/
structure PollerState where
  jobStatusFailures : Nat := 0
  timerActive : Bool := true
  requests : Nat := 0
  outcome : Option PollOutcome := none
deriving DecidableEq

/-- One interval tick running `pollJob` (sta-sp-preview.js lines
27-78).  No tick fires once the interval is cleared.  A successful poll
issues the fetch and, on `state == "stopped"`, clears the interval and
resolves with the final progress counters (lines 54-66); any other
state only logs progress — `jobStatusFailures` is not touched.  A call
failure increments `jobStatusFailures` (line 73) and rejects with the
line-75 message only when the count exceeds 6 (line 74); the reject
path does not clear the interval — the `finally` of `run` does. -/
def pollStep (name : String) (s : PollerState) (t : PollTick) : PollerState :=
  if s.timerActive = false then s
  else
    match t with
    | .success st p f =>
      if st = "stopped" then
        { s with requests := s.requests + 1
                 timerActive := false
                 outcome := s.outcome.orElse (fun _ => some (.resolved p f)) }
      else { s with requests := s.requests + 1 }
    | .callFailure =>
      if 6 < s.jobStatusFailures + 1 then
        { s with requests := s.requests + 1
                 jobStatusFailures := s.jobStatusFailures + 1
                 outcome := s.outcome.orElse
                   (fun _ => some (.aborted (pollFailureMessage name))) }
      else { s with requests := s.requests + 1
                    jobStatusFailures := s.jobStatusFailures + 1 }

/-- Running the interval over a sequence of tick observations. -/
def pollRun (name : String) (s : PollerState) : List PollTick → PollerState
  | [] => s
  | t :: ts => pollRun name (pollStep name s t) ts

/-- The `finally` cleanup of `run` (sta-sp-preview.js lines 136-140):
`if (jobStatusPoll) clearInterval(jobStatusPoll)` — a second cancel
finds no handle and is a no-op. -/
def runFinally (s : PollerState) : PollerState :=
  if s.timerActive then { s with timerActive := false } else s

/- ## Preview/publish per-path operator
(`src/.github/actions/sta-sp-preview/sta-sp-preview.js`, second source
document in the file, lines 144-277) -/

/-- JavaScript `String.prototype.lastIndexOf` for a single character:
the position of the last occurrence, with `none` standing for the `-1`
of JS. -/
def jsLastIndexOf : List Char → Char → Option Nat
  | [], _ => none
  | x :: xs, c =>
    match jsLastIndexOf xs c with
    | some i => some (i + 1)
    | none => if x = c then some 0 else none

/-- `lastSlash + 1` of `removeExtension` (line 170-171): the index where
the final path segment starts (`-1 + 1 = 0` when there is no slash). -/
def fileStartIndex (p : String) : Nat :=
  match jsLastIndexOf p.data '/' with
  | none => 0
  | some i => i + 1

/-- `removeExtension` (sta-sp-preview.js lines 169-176): slice off
everything from the last `.` of the final path segment; a segment
without a dot (`lastIndexOf` returning `-1`) leaves the path
unchanged. -/
def removeExtension (p : String) : String :=
  match jsLastIndexOf (p.data.drop (fileStartIndex p)) '.' with
  | none => p
  | some d =>
    String.mk (p.data.take (fileStartIndex p)
      ++ (p.data.drop (fileStartIndex p)).take d)

/-- A found last-occurrence index lies inside the list. -/
theorem jsLastIndexOf_lt (c : Char) :
    ∀ (l : List Char) (i : Nat), jsLastIndexOf l c = some i → i < l.length := by
  intro l
  induction l with
  | nil => intro i h; simp [jsLastIndexOf] at h
  | cons x xs ih =>
    intro i h
    unfold jsLastIndexOf at h
    cases hr : jsLastIndexOf xs c with
    | some j =>
      rw [hr] at h
      cases h
      have := ih j hr
      simp only [List.length_cons]
      omega
    | none =>
      rw [hr] at h
      by_cases hx : x = c
      · rw [if_pos hx] at h
        cases h
        simp
      · rw [if_neg hx] at h
        cases h

/-- The final path segment starts inside (or at the end of) the
string. -/
theorem fileStartIndex_le (p : String) : fileStartIndex p ≤ p.data.length := by
  unfold fileStartIndex
  cases h : jsLastIndexOf p.data '/' with
  | none => exact Nat.zero_le _
  | some i =>
    have hi := jsLastIndexOf_lt '/' p.data i h
    show i + 1 ≤ p.data.length
    omega

/-- Each application of `removeExtension` either leaves the path
unchanged (no extension) or makes it strictly shorter — the measure
behind the termination of the 415 retry recursion. -/
theorem removeExtension_shorter (p : String) :
    removeExtension p = p ∨ (removeExtension p).length < p.length := by
  unfold removeExtension
  cases h : jsLastIndexOf (p.data.drop (fileStartIndex p)) '.' with
  | none => exact Or.inl rfl
  | some d =>
    right
    have hd := jsLastIndexOf_lt '.' _ d h
    have hfs := fileStartIndex_le p
    show (String.mk _).length < p.length
    have h1 : (String.mk (p.data.take (fileStartIndex p)
        ++ (p.data.drop (fileStartIndex p)).take d)).length
        = (p.data.take (fileStartIndex p)).length
          + ((p.data.drop (fileStartIndex p)).take d).length := by
      show (p.data.take (fileStartIndex p)
        ++ (p.data.drop (fileStartIndex p)).take d).length = _
      exact List.length_append _ _
    have h2 : p.length = p.data.length := rfl
    rw [h1, h2, List.length_take, List.length_take, List.length_drop]
    rw [List.length_drop] at hd
    omega

/-- `operateOnPath` (sta-sp-preview.js lines 186-221): POST the
operation for the path; a 2xx is a success; on a 415 status the
extension is stripped and — only when that changed the path — the
operation is re-attempted, though the recursive call strips once more
(`operateOnPath(endpoint, removeExtension(noExtPath))` at line 202,
while the log of line 201 reports retrying with `noExtPath`); any other
status, a thrown fetch, or a 415 on an extension-less path is a
failure.  `resp` gives the HTTP status per path (a thrown fetch behaves
like any non-2xx, non-415 status here).  The second component lists the
paths attempted, in order. -/
def operateOnPath (resp : String → Nat) (p : String) : Bool × List String :=
  if 200 ≤ resp p ∧ resp p < 300 then (true, [p])
  else if resp p = 415 then
    if h : removeExtension p ≠ p then
      ((operateOnPath resp (removeExtension (removeExtension p))).1,
       p :: (operateOnPath resp (removeExtension (removeExtension p))).2)
    else (false, [p])
  else (false, [p])
termination_by p.length
decreasing_by
  all_goals
    rcases removeExtension_shorter p with h1 | h1
    · exact absurd h1 h
    · rcases removeExtension_shorter (removeExtension p) with h2 | h2
      · rw [h2]; exact h1
      · omega

/-- The `run` of `src/.github/actions/sta-azure-helper/sta-azure-helper.js`
(lines 51-139), the sibling of the variant embedded as `azureRun`: one
`try` block decodes the PFX with the password and extracts the private
key (throwing on a wrong password or, explicitly, when no private key
is present), builds and signs the JWT, and only then issues the token
POST; every throw lands in the shared catch of lines 136-138 with no
request issued (extraction and signing failures reach the same handler,
both modelled as `.assertionFailure`). -/
def azureHelperRun (extractKey : Except String Unit)
    (signAssertion : Except String String)
    (tokenResponse : Except String (Bool × String)) : AzureOutcome × Nat :=
  match extractKey with
  | .error m => (.assertionFailure m, 0)
  | .ok () =>
    match signAssertion with
    | .error m => (.assertionFailure m, 0)
    | .ok _assertion =>
      match tokenResponse with
      | .error m => (.fetchFailure m, 1)
      | .ok (false, _) => (.tokenRejected, 1)
      | .ok (true, t) => (.tokenIssued t, 1)

/- ## Theorems -/

/-- Claim C4, as stated, is false on the code: for a caller who supplied
a requested token lifetime of 600 seconds (a valid `Credential` lifetime
per spec §3), the `exp` claim produced by `createJWTHeaderAndPayload` is
not `now + 600` — the code hardcodes a 3600-second lifetime. -/
theorem C4_counterexample :
    (createJWTHeaderAndPayload "thumb" "tenant" "client" 1000 "uuid-1").2.exp
      ≠ 1000 + 600 := by
  decide

/-- Claim C4 (amended): for every call to `createJWTHeaderAndPayload`,
the `exp` claim of the JWT payload equals the `nbf`/now timestamp plus a
fixed 3600-second lifetime hardcoded in the code (not a caller-requested
lifetime), and the `jti` claim is exactly the fresh UUID generated for
the call. -/
theorem C4_fixed_lifetime_and_fresh_jti
    (thumbprint tenantId clientId : String) (now : Nat) (jti : String) :
    (createJWTHeaderAndPayload thumbprint tenantId clientId now jti).2.exp
      = (createJWTHeaderAndPayload thumbprint tenantId clientId now jti).2.nbf + 3600
    ∧ (createJWTHeaderAndPayload thumbprint tenantId clientId now jti).2.nbf = now
    ∧ (createJWTHeaderAndPayload thumbprint tenantId clientId now jti).2.jti = jti :=
  ⟨rfl, rfl, rfl⟩

/-- Claim C9: when key extraction fails (wrong password or no private
key in the bundle), both azure-helper variants end in their failure
handler with zero network calls — `azureRun` (the `src/unnamed/part_003`
variant, with its dedicated `setFailed`/exit path) and `azureHelperRun`
(the sta-azure-helper.js variant, through its shared catch); and in
both, whenever a network call was issued at all, the key extraction and
the signing step had succeeded first. -/
theorem C9_no_network_without_key_and_signature
    (ek : Except String Unit) (sa : Except String String)
    (tr : Except String (Bool × String)) :
    (∀ e, ek = .error e → azureRun ek sa tr = (.credentialFailure, 0))
    ∧ ((azureRun ek sa tr).2 ≠ 0 → ek = .ok () ∧ ∃ a, sa = .ok a)
    ∧ (∀ e, ek = .error e → azureHelperRun ek sa tr = (.assertionFailure e, 0))
    ∧ ((azureHelperRun ek sa tr).2 ≠ 0 → ek = .ok () ∧ ∃ a, sa = .ok a) := by
  refine ⟨?_, ?_, ?_, ?_⟩
  · rintro e rfl
    rfl
  · intro h
    cases ek with
    | error e => simp [azureRun] at h
    | ok u =>
      cases u
      cases sa with
      | error m => simp [azureRun] at h
      | ok a => exact ⟨rfl, a, rfl⟩
  · rintro e rfl
    rfl
  · intro h
    cases ek with
    | error e => simp [azureHelperRun] at h
    | ok u =>
      cases u
      cases sa with
      | error m => simp [azureHelperRun] at h
      | ok a => exact ⟨rfl, a, rfl⟩

/-- Witness for C9 at concrete inputs: a failed key extraction yields
the failure exit of each variant with zero network calls, and a run
that did issue its one network call had a successful extraction and
signature. -/
theorem C9_witness :
    azureRun (.error "mac verify failure") (.ok "sig") (.ok (true, "tok"))
      = (.credentialFailure, 0)
    ∧ ((.ok () : Except String Unit) = .ok ()
        ∧ ∃ a, (.ok "sig" : Except String String) = .ok a)
    ∧ azureHelperRun (.error "No private key found in PFX.") (.ok "sig")
        (.ok (true, "tok"))
      = (.assertionFailure "No private key found in PFX.", 0) :=
  ⟨(C9_no_network_without_key_and_signature (.error "mac verify failure")
      (.ok "sig") (.ok (true, "tok"))).1 "mac verify failure" rfl,
   (C9_no_network_without_key_and_signature (.ok ())
      (.ok "sig") (.ok (true, "tok"))).2.1 (by decide),
   (C9_no_network_without_key_and_signature
      (.error "No private key found in PFX.") (.ok "sig")
      (.ok (true, "tok"))).2.2.1 "No private key found in PFX." rfl⟩

/-- `searchByDrive` invoked without a folder path (the three-argument
call in `findDriveAndFolderId`) can never return a result: with a
uniquely matched drive the code immediately throws on
`undefined.split` and the catch yields `undefined`. -/
theorem searchByDrive_no_path (w : GraphWorld) (siteId drive : String) :
    searchByDrive w siteId drive none = none := by
  unfold searchByDrive
  cases hw : w ("/sites/" ++ siteId ++ "/drives?search=" ++ drive) with
  | error e => rfl
  | ok d =>
    cases hv : d.value with
    | none => simp [hv]
    | some vs =>
      simp only [hv]
      by_cases h : vs.length = 1 <;> simp [h]

/-- A world in which the direct path lookup of `Documents/x` under the
drive root and the segment-walk lookup (which strips the leading
`Documents` component) both succeed but find different folders. -/
def w5 : GraphWorld := fun e =>
  if e = "/drives/D/root:/x" then
    .ok { id := "SEG", name := "x", parentDriveId := "D", value := none }
  else if e = "/drives/D/root:/Documents/x" then
    .ok { id := "DIR", name := "x", parentDriveId := "D", value := none }
  else .error "404"

/-- Claim C5, as stated, is false on the code: in the world `w5` the
direct path lookup (`/drives/D/root:/Documents/x`) succeeds with folder
`DIR`, yet the resolver returns the segment-walk result `SEG` — the
segment-walk strategy runs first, not the direct path lookup. -/
theorem C5_counterexample :
    w5 ("/drives/" ++ "D" ++ "/root:/" ++ "Documents/x")
      = .ok { id := "DIR", name := "x", parentDriveId := "D", value := none }
    ∧ resolveFolder w5 "S" "D" "Documents/x" "Documents/x"
      = some { folderId := some "SEG", driveId := none }
    ∧ (some "SEG" : Option String) ≠ some "DIR" := by
  refine ⟨rfl, rfl, by decide⟩

/-- Claim C5 (amended): the resolver tries its strategies in the order
(1) segment-walk lookup (`getFolderByPath`), (2) direct path lookup,
(3) name-search fallback (`fetchFolderByPath`), (4) drive-name lookup
(`searchByDrive`); the direct lookup runs only when the segment walk
found nothing, the fallbacks only when the direct lookup threw, and the
first success short-circuits the chain.  When the first three fail, the
drive-name lookup — invoked by `findDriveAndFolderId` without a folder
path — cannot produce a result, so the resolution fails. -/
theorem C5_strategy_order_amended (w : GraphWorld) (siteId driveId sp dec : String) :
    (∀ fid fp, getFolderByPath w driveId sp = some (fid, fp) →
       resolveFolder w siteId driveId sp dec
         = some { folderId := some fid, driveId := none })
    ∧ (getFolderByPath w driveId sp = none →
       ∀ fd, w ("/drives/" ++ driveId ++ "/root:/" ++ sp) = .ok fd →
         resolveFolder w siteId driveId sp dec
           = some { folderId := some fd.id, driveId := some fd.parentDriveId })
    ∧ (getFolderByPath w driveId sp = none →
       ∀ e, w ("/drives/" ++ driveId ++ "/root:/" ++ sp) = .error e →
         ∀ fid did, fetchFolderByPath w siteId dec = .ok (some (fid, did)) →
           resolveFolder w siteId driveId sp dec
             = some { folderId := some fid, driveId := some did })
    ∧ (getFolderByPath w driveId sp = none →
       ∀ e, w ("/drives/" ++ driveId ++ "/root:/" ++ sp) = .error e →
         fetchFolderByPath w siteId dec = .ok none →
         resolveFolder w siteId driveId sp dec = none) := by
  refine ⟨?_, ?_, ?_, ?_⟩
  · intro fid fp hg
    simp [resolveFolder, hg]
  · intro hg fd hd
    simp [resolveFolder, hg, hd]
  · intro hg e hd fid did hf
    simp [resolveFolder, hg, hd, findDriveAndFolderId, hf]
  · intro hg e hd hf
    simp [resolveFolder, hg, hd, findDriveAndFolderId, hf, searchByDrive_no_path]

/-- World where only the segment walk succeeds. -/
def w5seg : GraphWorld := fun e =>
  if e = "/drives/D/root:/a" then
    .ok { id := "F1", name := "a", parentDriveId := "D", value := none }
  else .error "404"

/-- World where the segment walk fails and the direct encoded-path
lookup succeeds. -/
def w5dir : GraphWorld := fun e =>
  if e = "/drives/D/root:/Documents/x" then
    .ok { id := "DIR2", name := "x", parentDriveId := "D2", value := none }
  else .error "404"

/-- World where only the whole-site name search finds (exactly one)
folder. -/
def w5name : GraphWorld := fun e =>
  if e = "/sites/S/drive/root:/x" then
    .ok { id := "", name := "", parentDriveId := ""
          value := some [{ id := "NF", name := "x", parentDriveId := "D3", isFolder := true }] }
  else .error "404"

/-- World where every strategy comes up empty. -/
def w5none : GraphWorld := fun e =>
  if e = "/sites/S/drive/root:/x" then
    .ok { id := "", name := "", parentDriveId := "", value := some [] }
  else .error "404"

/-- Witness for C5 (amended) at concrete worlds, one per conjunct. -/
theorem C5_witness :
    resolveFolder w5seg "S" "D" "a" "a"
      = some { folderId := some "F1", driveId := none }
    ∧ resolveFolder w5dir "S" "D" "Documents/x" "x"
      = some { folderId := some "DIR2", driveId := some "D2" }
    ∧ resolveFolder w5name "S" "D" "Documents/x" "x"
      = some { folderId := some "NF", driveId := some "D3" }
    ∧ resolveFolder w5none "S" "D" "Documents/x" "x" = none :=
  ⟨(C5_strategy_order_amended w5seg "S" "D" "a" "a").1 "F1" "/a" rfl,
   (C5_strategy_order_amended w5dir "S" "D" "Documents/x" "x").2.1 rfl
     { id := "DIR2", name := "x", parentDriveId := "D2", value := none } rfl,
   (C5_strategy_order_amended w5name "S" "D" "Documents/x" "x").2.2.1 rfl
     "404" rfl "NF" "D3" rfl,
   (C5_strategy_order_amended w5none "S" "D" "Documents/x" "x").2.2.2 rfl
     "404" rfl rfl⟩

/-- Claim C6: an ambiguous lookup is rejected, never silently resolved
to the first candidate — a drive search answering with two drives of the
requested name makes `searchByDrive` fail (the multiple-drives warning
path, the resolution error of the action), and a whole-site name search
whose response holds zero or more than one folder-typed result makes
`fetchFolderByPath` return no candidate. -/
theorem C6_ambiguous_lookup_rejected
    (w : GraphWorld) (siteId drive fp : String) (fpOpt : Option String)
    (r r2 : GResp) (vs vs2 : List GItem) :
    (w ("/sites/" ++ siteId ++ "/drives?search=" ++ drive) = .ok r →
       r.value = some vs → vs.length = 2 →
       searchByDrive w siteId drive fpOpt = none)
    ∧ (w ("/sites/" ++ siteId ++ "/drive/root:/" ++ ((jsSplit fp '/').getLastD ""))
         = .ok r2 →
       r2.value = some vs2 →
       (vs2.filter (fun it => it.isFolder)).length ≠ 1 →
       fetchFolderByPath w siteId fp = .ok none) := by
  constructor
  · intro hw hv hl
    unfold searchByDrive
    rw [hw]
    simp only [hv]
    have h1 : ¬ vs.length = 1 := by omega
    simp [h1]
  · intro hw hv hl
    show (match w ("/sites/" ++ siteId ++ "/drive/root:/" ++ ((jsSplit fp '/').getLastD ""))
            with
          | .error e => (.error e : Except String (Option (String × String)))
          | .ok searchResults =>
            match searchResults.value with
            | none => .ok none
            | some vs =>
              if vs.isEmpty then .ok none
              else
                match vs.filter (fun (it : GItem) => it.isFolder) with
                | [] => .ok none
                | [f] => .ok (some (f.id, f.parentDriveId))
                | _ :: _ :: _ => .ok none) = .ok none
    rw [hw]
    simp only [hv]
    rcases vs2 with _ | ⟨a, rest⟩
    · simp
    · simp only [List.isEmpty_cons]
      cases hfil : (a :: rest).filter (fun it => it.isFolder) with
      | nil => simp [hfil]
      | cons b bs =>
        cases bs with
        | nil => exact absurd (by rw [hfil]; rfl) hl
        | cons c cs => simp [hfil]

/-- A world whose drive search for "Demo" returns two drives and whose
name search for "f" returns two folder-typed items. -/
def w6 : GraphWorld := fun e =>
  if e = "/sites/S/drives?search=Demo" then
    .ok { id := "", name := "", parentDriveId := ""
          value := some [{ id := "dr1", name := "Demo", parentDriveId := "", isFolder := false },
                         { id := "dr2", name := "Demo", parentDriveId := "", isFolder := false }] }
  else if e = "/sites/S/drive/root:/f" then
    .ok { id := "", name := "", parentDriveId := ""
          value := some [{ id := "i1", name := "f", parentDriveId := "d", isFolder := true },
                         { id := "i2", name := "f", parentDriveId := "d", isFolder := true }] }
  else .error "404"

/-- Witness for C6 at a concrete world: two drives named Demo yield no
drive pick, and a name search with two folder results yields no folder
pick. -/
theorem C6_witness :
    searchByDrive w6 "S" "Demo" (some "f") = none
    ∧ fetchFolderByPath w6 "S" "f" = .ok none :=
  ⟨(C6_ambiguous_lookup_rejected w6 "S" "Demo" "f" (some "f")
      { id := "", name := "", parentDriveId := ""
        value := some [{ id := "dr1", name := "Demo", parentDriveId := "", isFolder := false },
                       { id := "dr2", name := "Demo", parentDriveId := "", isFolder := false }] }
      { id := "", name := "", parentDriveId := ""
        value := some [{ id := "i1", name := "f", parentDriveId := "d", isFolder := true },
                       { id := "i2", name := "f", parentDriveId := "d", isFolder := true }] }
      [{ id := "dr1", name := "Demo", parentDriveId := "", isFolder := false },
       { id := "dr2", name := "Demo", parentDriveId := "", isFolder := false }]
      [{ id := "i1", name := "f", parentDriveId := "d", isFolder := true },
       { id := "i2", name := "f", parentDriveId := "d", isFolder := true }]).1
      rfl rfl rfl,
   (C6_ambiguous_lookup_rejected w6 "S" "Demo" "f" (some "f")
      { id := "", name := "", parentDriveId := ""
        value := some [{ id := "dr1", name := "Demo", parentDriveId := "", isFolder := false },
                       { id := "dr2", name := "Demo", parentDriveId := "", isFolder := false }] }
      { id := "", name := "", parentDriveId := ""
        value := some [{ id := "i1", name := "f", parentDriveId := "d", isFolder := true },
                       { id := "i2", name := "f", parentDriveId := "d", isFolder := true }] }
      [{ id := "dr1", name := "Demo", parentDriveId := "", isFolder := false },
       { id := "dr2", name := "Demo", parentDriveId := "", isFolder := false }]
      [{ id := "i1", name := "f", parentDriveId := "d", isFolder := true },
       { id := "i2", name := "f", parentDriveId := "d", isFolder := true }]).2
      rfl rfl (by decide)⟩

/-- Remote for the C1 counterexample: creating `dup` answers `409` and
the child lookup finds two existing candidates; everything else is
created fresh. -/
def c1Remote : FolderRemote :=
  { create := fun _ n => if n = "dup" then .status 409 else .ok "N1"
    childLookup := fun _ n => if n = "dup" then .ok ["A", "B"] else .ok [] }

/-- Claim C1, as stated, is false on the code: a `409` whose child
lookup returns two matches makes `createFoldersIfNecessary` throw
"Upload is aborted" with `failedFolderCreations` still 0 (the default
report is returned unchanged in the error), and the remaining folder
`other` is never processed — the whole session aborts instead of
incrementing the counter and continuing past the subtree. -/
theorem C1_counterexample :
    createFoldersIfNecessary c1Remote "ROOT" ["dup", "other"] {}
      = .error ("Found multiple existing folders for dup. Upload is aborted.",
          { uploads := 0, failures := 0, failedList := [],
            failedFolderCreations := 0 }) := by
  rfl

/-- Claim C1 (amended): a folder-creation request answered `409` is
resolved by the name-filtered child lookup; exactly one match memoizes
the existing id and processing continues; zero or more than one match
throws the "Upload is aborted" error, which aborts the whole session —
the remaining segments and the remaining folders are abandoned, so
`uploadFiles` never runs — without incrementing
`report.failedFolderCreations`; the counter is incremented only when a
creation fails with a status other than 409, which also aborts the
session. -/
theorem C1_conflict_resolution
    (r : FolderRemote) (seg currentPath parentId i fid : String)
    (rest : List String) (p : String) (ps : List String)
    (fm : FolderMap) (rep : UploadReport) (e : String × UploadReport) :
    (fmLookup fm (nextCurrentPath currentPath seg) = none →
     r.create parentId seg = .status 409 →
     r.childLookup parentId seg = .ok [i] →
     createFolderSegments r (seg :: rest) currentPath parentId fm rep
       = createFolderSegments r rest (nextCurrentPath currentPath seg) i
           ((nextCurrentPath currentPath seg, i) :: fm) rep)
    ∧ (fmLookup fm (nextCurrentPath currentPath seg) = none →
       r.create parentId seg = .status 409 →
       r.childLookup parentId seg = .ok [] →
       createFolderSegments r (seg :: rest) currentPath parentId fm rep
         = .error ("Failed to get data for existing folder "
             ++ nextCurrentPath currentPath seg ++ ". Upload is aborted.", rep))
    ∧ (∀ a b t, fmLookup fm (nextCurrentPath currentPath seg) = none →
       r.create parentId seg = .status 409 →
       r.childLookup parentId seg = .ok (a :: b :: t) →
       createFolderSegments r (seg :: rest) currentPath parentId fm rep
         = .error ("Found multiple existing folders for "
             ++ nextCurrentPath currentPath seg ++ ". Upload is aborted.", rep))
    ∧ (∀ c, fmLookup fm (nextCurrentPath currentPath seg) = none →
       r.create parentId seg = .status c → c ≠ 409 →
       createFolderSegments r (seg :: rest) currentPath parentId fm rep
         = .error ("Failed to create folder " ++ nextCurrentPath currentPath seg
             ++ ". Upload is aborted.",
           { rep with failedFolderCreations := rep.failedFolderCreations + 1 }))
    ∧ (createFolderSegments r (jsSplit p '/') "" fid fm rep = .error e →
       createFoldersOver r fid (p :: ps) fm rep = .error e) := by
  refine ⟨?_, ?_, ?_, ?_, ?_⟩
  · intro hm hc hl
    conv_lhs => unfold createFolderSegments
    simp [hm, hc, hl]
  · intro hm hc hl
    conv_lhs => unfold createFolderSegments
    simp [hm, hc, hl]
  · intro a b t hm hc hl
    conv_lhs => unfold createFolderSegments
    simp [hm, hc, hl]
  · intro c hm hc hne
    conv_lhs => unfold createFolderSegments
    simp [hm, hc, if_neg hne]
  · intro hs
    conv_lhs => unfold createFoldersOver
    rw [hs]

/-- Remote for the C1 witness: `sub` hits a `409` resolved by a unique
lookup match, `dup` a `409` with two matches, `zero` a `409` with no
match, and `boom` a 500. -/
def c1WitnessRemote : FolderRemote :=
  { create := fun _ n =>
      if n = "sub" ∨ n = "dup" ∨ n = "zero" then .status 409
      else if n = "boom" then .status 500
      else .ok "NEW"
    childLookup := fun _ n =>
      if n = "sub" then .ok ["EXIST"]
      else if n = "dup" then .ok ["A", "B"]
      else .ok [] }

/-- Witness for C1 (amended) at the concrete remote, one instance per
conjunct. -/
theorem C1_witness :
    createFolderSegments c1WitnessRemote ["sub", "child"] "" "ROOT" [] {}
      = createFolderSegments c1WitnessRemote ["child"] "sub" "EXIST"
          [("sub", "EXIST")] {}
    ∧ createFolderSegments c1WitnessRemote ["zero"] "" "ROOT" [] {}
      = .error ("Failed to get data for existing folder zero. Upload is aborted.",
          {})
    ∧ createFolderSegments c1WitnessRemote ["dup"] "" "ROOT" [] {}
      = .error ("Found multiple existing folders for dup. Upload is aborted.", {})
    ∧ createFolderSegments c1WitnessRemote ["boom"] "" "ROOT" [] {}
      = .error ("Failed to create folder boom. Upload is aborted.",
          { failedFolderCreations := 1 })
    ∧ createFoldersOver c1WitnessRemote "ROOT" ["dup", "next"] [] {}
      = .error ("Found multiple existing folders for dup. Upload is aborted.",
          {}) :=
  ⟨(C1_conflict_resolution c1WitnessRemote "sub" "" "ROOT" "EXIST" "R"
      ["child"] "q" [] [] {} ("", {})).1 rfl rfl rfl,
   (C1_conflict_resolution c1WitnessRemote "zero" "" "ROOT" "i" "R"
      [] "q" [] [] {} ("", {})).2.1 rfl rfl rfl,
   (C1_conflict_resolution c1WitnessRemote "dup" "" "ROOT" "i" "R"
      [] "q" [] [] {} ("", {})).2.2.1 "A" "B" [] rfl rfl rfl,
   (C1_conflict_resolution c1WitnessRemote "boom" "" "ROOT" "i" "R"
      [] "q" [] [] {} ("", {})).2.2.2.1 500 rfl rfl (by decide),
   (C1_conflict_resolution c1WitnessRemote "x" "" "P" "i" "ROOT"
      [] "dup" ["next"] [] {}
      ("Found multiple existing folders for dup. Upload is aborted.", {})).2.2.2.2
      rfl⟩

/-- Claim C2 — the code contradicts it and its own retry messages: the
429 guard of the shell `upload_files` loop tests the never-assigned
`$response` (always the empty string, never `"429"`), so the retry
branch is unreachable and every attempt with status ≥ 400, a 429
included, records an immediate failure after a single attempt with no
retry and no sleep; the JS `uploadFile` makes one PUT with no status
inspection at all, and `uploadFiles` records the failure and continues
with the remaining files without raising. -/
theorem C2_dead_retry_code :
    (shellResponseVar = "" ∧ shellResponseVar ≠ "429")
    ∧ (∀ (respCode : Nat → Nat) (file : String) (rc fuel : Nat) (st : ShTotals),
        shUploadLoop respCode file rc (fuel + 1) st
          = if 400 ≤ respCode rc then
              ({ st with failures := st.failures + 1
                         failedFiles := st.failedFiles ++ [file] }, [])
            else ({ st with successes := st.successes + 1 }, []))
    ∧ shUploadFile (fun _ => 429) "sub/b.txt" {}
      = ({ successes := 0, failures := 1, failedFiles := ["sub/b.txt"] }, [])
    ∧ uploadFile (fun _ => .error "Graph API error 429: throttled") "D" "ROOT"
        { name := "b.txt", path := "/zip/sub/b.txt" } = false
    ∧ uploadFiles (fun _ => .error "Graph API error 429: throttled") "D" "ROOT"
        [{ name := "b.txt", path := "/zip/sub/b.txt" },
         { name := "c.txt", path := "/zip/c.txt" }] {}
      = ({ uploads := 0, failures := 2,
           failedList := ["/zip/sub/b.txt", "/zip/c.txt"],
           failedFolderCreations := 0 },
         ["/drives/D/items/ROOT:/zip/sub/b.txt/content",
          "/drives/D/items/ROOT:/zip/c.txt/content"]) := by
  refine ⟨⟨rfl, by decide⟩, ?_, rfl, rfl, rfl⟩
  intro respCode file rc fuel st
  conv_lhs => unfold shUploadLoop
  rw [if_neg (show ¬ shellResponseVar = "429" by decide)]

/-- Claim C3, as stated, is false on the code: `uploadFiles` PUTs every
file with the session root folder id and the full local file path — for
`sub/b.txt` (local path `/zip/sub/b.txt`) under the destination root
`ROOT`, the endpoint is `/drives/D/items/ROOT:/zip/sub/b.txt/content`,
not the spec-shaped endpoint under a folder id `SUB1` resolved for
`sub`; `uploadFiles` takes no folder map at all. -/
theorem C3_counterexample :
    (uploadFiles (fun _ => .ok ()) "D" "ROOT"
        [{ name := "b.txt", path := "/zip/sub/b.txt" }] {}).2
      = ["/drives/D/items/ROOT:/zip/sub/b.txt/content"]
    ∧ ("/drives/D/items/ROOT:/zip/sub/b.txt/content" : String)
        ≠ "/drives/D" ++ claimedContentEndpoint "SUB1" "b.txt" :=
  ⟨rfl, by decide⟩

/-- Claim C3 (amended): every PUT of `uploadFiles` goes to
`/drives/{driveId}/items/{folderId}:{file.path}/content` with the same
session root `folderId` for every file and the full local `file.path`;
no per-parent folder id is resolved — the folder map of
`createFoldersIfNecessary` is local to it and never consulted by the
upload step. -/
theorem C3_upload_endpoint_root
    (w : String → Except String Unit) (driveId folderId : String)
    (files : List SrcFile) (rep : UploadReport) :
    (uploadFiles w driveId folderId files rep).2
      = files.map (fun f => uploadEndpoint driveId folderId f.path) := by
  induction files generalizing rep with
  | nil => rfl
  | cons f fs ih =>
    have ih2 := ih (if uploadFile w driveId folderId f
        then { rep with uploads := rep.uploads + 1 }
        else { rep with failures := rep.failures + 1
                        failedList := rep.failedList ++ [f.path] })
    conv_lhs => unfold uploadFiles
    cases hr : uploadFiles w driveId folderId fs
        (if uploadFile w driveId folderId f
         then { rep with uploads := rep.uploads + 1 }
         else { rep with failures := rep.failures + 1
                         failedList := rep.failedList ++ [f.path] }) with
    | mk repF eps =>
      rw [hr] at ih2
      show uploadEndpoint driveId folderId f.path :: eps
          = uploadEndpoint driveId folderId f.path
            :: List.map (fun f => uploadEndpoint driveId folderId f.path) fs
      exact congrArg _ ih2

/-- Claim C7, as stated, is false on the code: a successful poll does
not reset `jobStatusFailures` (after five failures a success leaves the
counter at 5, not 0), and the failure that brings the count to the
claimed cap of 6 does not abort — `pollJob` rejects only when the count
exceeds 6. -/
theorem C7_counterexample :
    (pollStep "job1"
        { jobStatusFailures := 5, timerActive := true, requests := 5,
          outcome := none }
        (.success "running" 3 0)).jobStatusFailures = 5
    ∧ (pollStep "job1"
        { jobStatusFailures := 5, timerActive := true, requests := 5,
          outcome := none }
        .callFailure).outcome = none :=
  ⟨rfl, rfl⟩

/-- Claim C7 (amended): `pollJob` counts cumulative poll-call failures —
a successful poll of any state leaves the counter untouched (it is
never reset), each call failure increments it, a failure that keeps the
count at 6 or below does not reject, and the failure that makes the
count exceed 6 (the seventh) rejects with the message of line 75, which
states that completion cannot be guaranteed, while leaving the interval
running — the cleanup in `run` cancels it. -/
theorem C7_failure_budget (name : String) (s : PollerState) (st : String)
    (p f : Nat) :
    (s.timerActive = true →
       (pollStep name s (.success st p f)).jobStatusFailures
         = s.jobStatusFailures)
    ∧ (s.timerActive = true →
       (pollStep name s .callFailure).jobStatusFailures
         = s.jobStatusFailures + 1)
    ∧ (s.timerActive = true → s.outcome = none → s.jobStatusFailures + 1 ≤ 6 →
       (pollStep name s .callFailure).outcome = none)
    ∧ (s.timerActive = true → s.outcome = none → 6 < s.jobStatusFailures + 1 →
       pollStep name s .callFailure
         = { s with requests := s.requests + 1
                    jobStatusFailures := s.jobStatusFailures + 1
                    outcome := some (.aborted (pollFailureMessage name)) })
    ∧ (∃ pre post : String,
        pollFailureMessage name
          = pre ++ "Completion cannot be guaranteed." ++ post) := by
  refine ⟨?_, ?_, ?_, ?_, ?_⟩
  · intro ht
    by_cases hst : st = "stopped" <;> simp [pollStep, ht, hst]
  · intro ht
    by_cases hc : 6 < s.jobStatusFailures + 1 <;> simp [pollStep, ht, hc]
  · intro ht ho hc
    have hc2 : ¬ 6 < s.jobStatusFailures + 1 := by omega
    simp [pollStep, ht, hc2, ho]
  · intro ht ho hc
    simp [pollStep, ht, hc, ho, Option.orElse]
  · refine ⟨"Failed to get status for job " ++ name ++ " after 6 attempts. ",
      " Please verify yourself.", ?_⟩
    show String.mk _ = String.mk _
    simp [pollFailureMessage]

/-- Poller state with two accumulated call failures and a live
interval. -/
def pollerAfterTwoFailures : PollerState :=
  { jobStatusFailures := 2
    timerActive := true
    requests := 2
    outcome := none }

/-- Poller state with six accumulated call failures and a live
interval. -/
def pollerAfterSixFailures : PollerState :=
  { jobStatusFailures := 6
    timerActive := true
    requests := 6
    outcome := none }

/-- Witness for C7 (amended) at concrete poller states: a success after
two failures leaves the counter at 2, a third failure makes it 3
without rejecting, the failure taking the count from 6 to 7 rejects
with the line-75 message while the interval stays active, and the
message carries the completion-cannot-be-guaranteed phrase. -/
theorem C7_witness :
    (pollStep "j" pollerAfterTwoFailures
        (.success "running" 3 0)).jobStatusFailures = 2
    ∧ (pollStep "j" pollerAfterTwoFailures .callFailure).jobStatusFailures
        = 2 + 1
    ∧ (pollStep "j" pollerAfterTwoFailures .callFailure).outcome = none
    ∧ pollStep "j" pollerAfterSixFailures .callFailure
      = { jobStatusFailures := 7
          timerActive := true
          requests := 7
          outcome := some (.aborted (pollFailureMessage "j")) }
    ∧ (∃ pre post : String,
        pollFailureMessage "j"
          = pre ++ "Completion cannot be guaranteed." ++ post) :=
  ⟨(C7_failure_budget "j" pollerAfterTwoFailures "running" 3 0).1 rfl,
   (C7_failure_budget "j" pollerAfterTwoFailures "running" 3 0).2.1 rfl,
   (C7_failure_budget "j" pollerAfterTwoFailures "running" 3 0).2.2.1
      rfl rfl (by decide),
   (C7_failure_budget "j" pollerAfterSixFailures "running" 3 0).2.2.2.1
      rfl rfl (by decide),
   (C7_failure_budget "j" pollerAfterSixFailures "running" 3 0).2.2.2.2⟩

/-- Claim C8: once a tick observes `state = "stopped"`, the poller
clears the interval and resolves with the final progress counters in
that same tick; a cleared interval is absorbing — `pollRun` leaves the
state, its request count included, unchanged, so no further status
request is ever issued; and the `finally` cancellation is idempotent,
a second cancel finding no handle and changing nothing. -/
theorem C8_stopped_terminal (name : String) (s : PollerState) (p f : Nat)
    (t : PollTick) (ts : List PollTick) :
    (s.timerActive = true → s.outcome = none →
       pollStep name s (.success "stopped" p f)
         = { s with requests := s.requests + 1
                    timerActive := false
                    outcome := some (.resolved p f) })
    ∧ (s.timerActive = false → pollStep name s t = s)
    ∧ (s.timerActive = false → pollRun name s ts = s)
    ∧ runFinally (runFinally s) = runFinally s := by
  refine ⟨?_, ?_, ?_, ?_⟩
  · intro ht ho
    simp [pollStep, ht, ho, Option.orElse]
  · intro ht
    simp [pollStep, ht]
  · intro ht
    induction ts with
    | nil => rfl
    | cons t2 ts2 ih =>
      show pollRun name (pollStep name s t2) ts2 = s
      rw [show pollStep name s t2 = s from by simp [pollStep, ht]]
      exact ih
  · by_cases ht : s.timerActive <;> simp [runFinally, ht]

/-- A live poller state just before observing the stopped job. -/
def pollerBeforeStop : PollerState :=
  { jobStatusFailures := 2
    timerActive := true
    requests := 5
    outcome := none }

/-- The terminal poller state after the stopped observation. -/
def pollerStopped : PollerState :=
  { jobStatusFailures := 2
    timerActive := false
    requests := 6
    outcome := some (.resolved 9 1) }

/-- Witness for C8 at a concrete poller state: the stopped poll
resolves with the final counters and clears the interval in its own
tick, further ticks leave the terminal state (and its request count)
untouched, and a second cancel changes nothing. -/
theorem C8_witness :
    pollStep "j" pollerBeforeStop (.success "stopped" 9 1) = pollerStopped
    ∧ pollRun "j" pollerStopped
        [.callFailure, .success "stopped" 9 1, .callFailure] = pollerStopped
    ∧ runFinally (runFinally pollerStopped) = runFinally pollerStopped :=
  ⟨(C8_stopped_terminal "j" pollerBeforeStop 9 1 .callFailure []).1 rfl rfl,
   (C8_stopped_terminal "j" pollerStopped 9 1 .callFailure
      [.callFailure, .success "stopped" 9 1, .callFailure]).2.2.1 rfl,
   (C8_stopped_terminal "j" pollerStopped 9 1 .callFailure []).2.2.2⟩

/-- Claim C10: the 415 fallback terminates — each application of
`removeExtension` either leaves a path unchanged (no extension, hence
no re-attempt) or strictly shortens it, so the retry recursion is
finite for every input, and an extension-less path such as `/x/noext`
is attempted exactly once.  However, the re-attempted path is not the
final-extension-stripped path the claim (and the log of line 201)
describe: for `/x/b.tar.gz` one strip gives `/x/b.tar`, yet the code
re-attempts with `/x/b` — the recursive call of line 202 strips the
already-stripped path a second time. -/
theorem C10_strip_retry :
    (∀ p : String, removeExtension p = p ∨ (removeExtension p).length < p.length)
    ∧ removeExtension "/x/b.tar.gz" = "/x/b.tar"
    ∧ operateOnPath (fun _ => 415) "/x/b.tar.gz"
        = (false, ["/x/b.tar.gz", "/x/b"])
    ∧ operateOnPath (fun _ => 415) "/x/noext" = (false, ["/x/noext"]) := by
  refine ⟨removeExtension_shorter, rfl, ?_, ?_⟩
  · rw [operateOnPath]
    rw [if_neg (by decide),
      if_pos (by decide : ((fun _ => 415) "/x/b.tar.gz") = 415)]
    rw [dif_pos (by decide : removeExtension "/x/b.tar.gz" ≠ "/x/b.tar.gz")]
    rw [show removeExtension (removeExtension "/x/b.tar.gz") = "/x/b" from rfl]
    rw [operateOnPath]
    rw [if_neg (by decide), if_pos (by decide : ((fun _ => 415) "/x/b") = 415)]
    rw [dif_neg (by decide : ¬ (removeExtension "/x/b" ≠ "/x/b"))]
  · rw [operateOnPath]
    rw [if_neg (by decide),
      if_pos (by decide : ((fun _ => 415) "/x/noext") = 415)]
    rw [dif_neg (by decide : ¬ (removeExtension "/x/noext" ≠ "/x/noext"))]

end StaPlayground
